import Mathlib

/-!
# Verification of the data-validation engine (`src/data_validation.py`)

Shallow embedding of the `DataValidator` checks of
`data_validation.py` as pure Lean functions over the three record
collections (customers, products, orders).

Modelling choices:
* A SQL table is a `List` of records; nullable columns are `Option`-typed.
  `customer_id`, `product_id` and `order_id` are primary keys of their
  tables and hence non-null (`Int`); the foreign-key columns and the
  other validated columns are nullable exactly where the validator's SQL
  tests `IS NULL`.
* SQLite `REAL` money columns (`price`, `unit_price`) are modelled as `ℚ`;
  `INTEGER` columns (`quantity`, `stock_quantity`) as `Int`.
* SQL three-valued logic is reproduced: a comparison against `NULL`
  (e.g. `price < 0`, `email NOT LIKE …`, a join condition
  `o.customer_id = c.customer_id`) is not-true, so `NULL` rows are never
  selected by those `WHERE` clauses, and a `NULL` foreign key joins to
  no row.  `GROUP BY` places all `NULL`s in one group, as SQLite does.
* Each issue appended by the Python code is an interpolated f-string;
  we build the same `label ++ rendered payload` strings, with a plain
  rendering of rows (the exact textual representation of numbers differs
  from Python's `repr`, which no property depends on).
-/

/- Batteries marks the `Rat` arithmetic operations `@[irreducible]`;
concrete evaluation of the validator on sample datasets (via `decide`)
needs them to reduce. -/
unseal Rat.sub Rat.add Rat.mul Rat.inv Rat.ofScientific

namespace DataValidation

/-- A row of the `customers` table, restricted to the columns the
validator reads. -/
structure Customer where
  customer_id : Int
  first_name : Option String
  last_name : Option String
  email : Option String
deriving DecidableEq, Repr

/-- A row of the `products` table, restricted to the columns the
validator reads. -/
structure Product where
  product_id : Int
  product_name : Option String
  price : Option ℚ
  stock_quantity : Option Int
deriving DecidableEq, Repr

/-- A row of the `orders` table, restricted to the columns the
validator reads. -/
structure Order where
  order_id : Int
  customer_id : Option Int
  product_id : Option Int
  quantity : Option Int
  unit_price : Option ℚ
deriving DecidableEq, Repr

/-- The snapshot of the database the validator runs over. -/
structure Dataset where
  customers : List Customer
  products : List Product
  orders : List Order
deriving DecidableEq, Repr

/-- The dictionary `{'table'/…: …, 'valid': …, 'issues': …}` each
`validate_*` method returns. -/
structure SectionResult where
  label : String
  valid : Bool
  issues : List String
deriving DecidableEq, Repr

/-! ## String rendering of fetched rows (the f-string payloads) -/

/-- Render an optional string column the way a fetched value appears
inside the f-string payload. -/
def renderOptStr : Option String → String
  | none => "None"
  | some s => s

/-- Render an optional integer column. -/
def renderOptInt : Option Int → String
  | none => "None"
  | some n => toString n

/-- Render an optional rational (REAL) column. -/
def renderOptRat : Option ℚ → String
  | none => "None"
  | some q => toString q

/-- Render a list of already-rendered row tuples, as Python renders a
list of tuples. -/
def renderList (f : α → String) (xs : List α) : String :=
  "[" ++ String.intercalate ", " (xs.map f) ++ "]"

/-! ## `validate_customers` -/

/-- Rows fetched by
`SELECT … FROM customers WHERE first_name IS NULL OR last_name IS NULL OR email IS NULL`. -/
def customersNullRows (cs : List Customer) : List Customer :=
  cs.filter fun c =>
    c.first_name = none ∨ c.last_name = none ∨ c.email = none

/-- A `GROUP BY f HAVING count > 1` query over a table `l`: each value
of `f` (`NULL`s grouped together, as in SQLite) with its multiplicity,
kept when the multiplicity exceeds 1. -/
def sqlGroupCounts [DecidableEq β] (l : List α) (f : α → β) : List (β × Nat) :=
  (((l.map f).dedup).map
    (fun e => (e, (l.filter fun a => f a = e).length))).filter
    (fun g => 1 < g.2)

/-- The `GROUP BY email HAVING count > 1` query. -/
def duplicateEmailGroups (cs : List Customer) : List (Option String × Nat) :=
  sqlGroupCounts cs (·.email)

/-- The SQL pattern `LIKE '%@%.%'` on a (non-null) character list:
the string contains an `@` with a `.` somewhere after it.  Scanning to
the first `@` suffices, since any later `@` followed by a `.` puts that
`.` after the first `@` as well. -/
def likeAtDot : List Char → Bool
  | [] => false
  | c :: cs => if c = '@' then cs.contains '.' else likeAtDot cs

/-- The test `email LIKE '%@%.%'` on a string value. -/
def sqlLikeAtDot (s : String) : Bool :=
  likeAtDot s.data

/-- Rows fetched by
`SELECT customer_id, email FROM customers WHERE email NOT LIKE '%@%.%'`.
A `NULL` email makes `NOT LIKE` evaluate to `NULL`, so such rows are not
selected. -/
def invalidEmailRows (cs : List Customer) : List Customer :=
  cs.filter fun c =>
    match c.email with
    | none => false
    | some s => !sqlLikeAtDot s

/-- Render a full customer row `(customer_id, first_name, last_name, email)`. -/
def customerRowStr (c : Customer) : String :=
  "(" ++ toString c.customer_id ++ ", " ++ renderOptStr c.first_name ++ ", "
    ++ renderOptStr c.last_name ++ ", " ++ renderOptStr c.email ++ ")"

/-- Render an `(email, count)` group row. -/
def emailGroupStr (g : Option String × Nat) : String :=
  "(" ++ renderOptStr g.1 ++ ", " ++ toString g.2 ++ ")"

/-- Render a `(customer_id, email)` row. -/
def customerEmailStr (c : Customer) : String :=
  "(" ++ toString c.customer_id ++ ", " ++ renderOptStr c.email ++ ")"

/-- The message appended for customers with NULL required fields. -/
def customersNullMsg (rows : List Customer) : String :=
  "Customers with NULL required fields: " ++ renderList customerRowStr rows

/-- The message appended for duplicate email addresses. -/
def duplicateEmailMsg (groups : List (Option String × Nat)) : String :=
  "Duplicate email addresses: " ++ renderList emailGroupStr groups

/-- The message appended for invalid email formats. -/
def invalidEmailMsg (rows : List Customer) : String :=
  "Invalid email format: " ++ renderList customerEmailStr rows

/-- The `issues` list accumulated by `validate_customers`: one message
per violated rule, in program order. -/
def customersIssues (cs : List Customer) : List String :=
  (if (customersNullRows cs).isEmpty then []
    else [customersNullMsg (customersNullRows cs)]) ++
  (if (duplicateEmailGroups cs).isEmpty then []
    else [duplicateEmailMsg (duplicateEmailGroups cs)]) ++
  (if (invalidEmailRows cs).isEmpty then []
    else [invalidEmailMsg (invalidEmailRows cs)])

/-- Embeds `DataValidator.validate_customers`: NULL required fields, duplicate
emails, and the basic email-format check. -/
def validate_customers (cs : List Customer) : SectionResult :=
  { label := "customers"
    valid := (customersIssues cs).isEmpty
    issues := customersIssues cs }

/-! ## `validate_products` -/

/-- Rows fetched by the products NULL-field query
(`product_name IS NULL OR price IS NULL`; `stock_quantity` is not a
required field). -/
def productsNullRows (ps : List Product) : List Product :=
  ps.filter fun p => p.product_name = none ∨ p.price = none

/-- Rows fetched by `WHERE price < 0`; a `NULL` price compares to
not-true. -/
def negativePriceRows (ps : List Product) : List Product :=
  ps.filter fun p =>
    match p.price with
    | none => false
    | some v => v < 0

/-- Rows fetched by `WHERE stock_quantity < 0`; a `NULL` stock compares
to not-true. -/
def negativeStockRows (ps : List Product) : List Product :=
  ps.filter fun p =>
    match p.stock_quantity with
    | none => false
    | some v => v < 0

/-- The `GROUP BY product_id HAVING count > 1` query. -/
def duplicateProductIdGroups (ps : List Product) : List (Int × Nat) :=
  sqlGroupCounts ps (·.product_id)

/-- Render a `(product_id, product_name, price)` row. -/
def productPriceRowStr (p : Product) : String :=
  "(" ++ toString p.product_id ++ ", " ++ renderOptStr p.product_name ++ ", "
    ++ renderOptRat p.price ++ ")"

/-- Render a `(product_id, product_name, stock_quantity)` row. -/
def productStockRowStr (p : Product) : String :=
  "(" ++ toString p.product_id ++ ", " ++ renderOptStr p.product_name ++ ", "
    ++ renderOptInt p.stock_quantity ++ ")"

/-- Render a `(product_id, count)` group row. -/
def productIdGroupStr (g : Int × Nat) : String :=
  "(" ++ toString g.1 ++ ", " ++ toString g.2 ++ ")"

/-- The message appended for products with NULL required fields. -/
def productsNullMsg (rows : List Product) : String :=
  "Products with NULL required fields: " ++ renderList productPriceRowStr rows

/-- The message appended for negative prices. -/
def negativePriceMsg (rows : List Product) : String :=
  "Products with negative prices: " ++ renderList productPriceRowStr rows

/-- The message appended for negative stock. -/
def negativeStockMsg (rows : List Product) : String :=
  "Products with negative stock: " ++ renderList productStockRowStr rows

/-- The message appended for duplicate product IDs. -/
def duplicateProductIdMsg (groups : List (Int × Nat)) : String :=
  "Duplicate product IDs: " ++ renderList productIdGroupStr groups

/-- The `issues` list accumulated by `validate_products`. -/
def productsIssues (ps : List Product) : List String :=
  (if (productsNullRows ps).isEmpty then []
    else [productsNullMsg (productsNullRows ps)]) ++
  (if (negativePriceRows ps).isEmpty then []
    else [negativePriceMsg (negativePriceRows ps)]) ++
  (if (negativeStockRows ps).isEmpty then []
    else [negativeStockMsg (negativeStockRows ps)]) ++
  (if (duplicateProductIdGroups ps).isEmpty then []
    else [duplicateProductIdMsg (duplicateProductIdGroups ps)])

/-- Embeds `DataValidator.validate_products`: NULL required fields, negative
prices, negative stock, duplicate product IDs. -/
def validate_products (ps : List Product) : SectionResult :=
  { label := "products"
    valid := (productsIssues ps).isEmpty
    issues := productsIssues ps }

/-! ## `validate_orders` -/

/-- Rows fetched by the orders NULL-field query
(`customer_id IS NULL OR product_id IS NULL OR quantity IS NULL OR unit_price IS NULL`). -/
def ordersNullRows (os : List Order) : List Order :=
  os.filter fun o =>
    o.customer_id = none ∨ o.product_id = none ∨
    o.quantity = none ∨ o.unit_price = none

/-- Rows fetched by `WHERE quantity <= 0`; a `NULL` quantity compares to
not-true. -/
def invalidQuantityRows (os : List Order) : List Order :=
  os.filter fun o =>
    match o.quantity with
    | none => false
    | some q => q ≤ 0

/-- Rows fetched by `WHERE unit_price < 0`; a `NULL` unit price compares
to not-true. -/
def negativeUnitPriceRows (os : List Order) : List Order :=
  os.filter fun o =>
    match o.unit_price with
    | none => false
    | some v => v < 0

/-- Render a full order row
`(order_id, customer_id, product_id, quantity, unit_price)`. -/
def orderRowStr (o : Order) : String :=
  "(" ++ toString o.order_id ++ ", " ++ renderOptInt o.customer_id ++ ", "
    ++ renderOptInt o.product_id ++ ", " ++ renderOptInt o.quantity ++ ", "
    ++ renderOptRat o.unit_price ++ ")"

/-- Render an `(order_id, quantity)` row. -/
def orderQuantityStr (o : Order) : String :=
  "(" ++ toString o.order_id ++ ", " ++ renderOptInt o.quantity ++ ")"

/-- Render an `(order_id, unit_price)` row. -/
def orderPriceStr (o : Order) : String :=
  "(" ++ toString o.order_id ++ ", " ++ renderOptRat o.unit_price ++ ")"

/-- The message appended for orders with NULL required fields. -/
def ordersNullMsg (rows : List Order) : String :=
  "Orders with NULL required fields: " ++ renderList orderRowStr rows

/-- The message appended for non-positive quantities. -/
def invalidQuantityMsg (rows : List Order) : String :=
  "Orders with invalid quantities: " ++ renderList orderQuantityStr rows

/-- The message appended for negative unit prices. -/
def negativeUnitPriceMsg (rows : List Order) : String :=
  "Orders with negative prices: " ++ renderList orderPriceStr rows

/-- The `issues` list accumulated by `validate_orders`. -/
def ordersIssues (os : List Order) : List String :=
  (if (ordersNullRows os).isEmpty then []
    else [ordersNullMsg (ordersNullRows os)]) ++
  (if (invalidQuantityRows os).isEmpty then []
    else [invalidQuantityMsg (invalidQuantityRows os)]) ++
  (if (negativeUnitPriceRows os).isEmpty then []
    else [negativeUnitPriceMsg (negativeUnitPriceRows os)])

/-- Embeds `DataValidator.validate_orders`: NULL required fields, non-positive
quantities, negative unit prices. -/
def validate_orders (os : List Order) : SectionResult :=
  { label := "orders"
    valid := (ordersIssues os).isEmpty
    issues := ordersIssues os }

/-! ## `validate_foreign_keys` -/

/-- The `LEFT JOIN customers … WHERE c.customer_id IS NULL` query: an
order is orphaned when no customer row satisfies the join condition
`o.customer_id = c.customer_id`.  A `NULL` `customer_id` satisfies the
condition for no row, so such orders are always orphaned. -/
def orphanCustomerRows (ds : Dataset) : List Order :=
  ds.orders.filter fun o =>
    !(ds.customers.any fun c => o.customer_id = some c.customer_id)

/-- The `LEFT JOIN products … WHERE p.product_id IS NULL` query. -/
def orphanProductRows (ds : Dataset) : List Order :=
  ds.orders.filter fun o =>
    !(ds.products.any fun p => o.product_id = some p.product_id)

/-- Render an `(order_id, customer_id)` row. -/
def orderCustomerStr (o : Order) : String :=
  "(" ++ toString o.order_id ++ ", " ++ renderOptInt o.customer_id ++ ")"

/-- Render an `(order_id, product_id)` row. -/
def orderProductStr (o : Order) : String :=
  "(" ++ toString o.order_id ++ ", " ++ renderOptInt o.product_id ++ ")"

/-- The message appended for orders with unresolvable `customer_id`. -/
def orphanCustomerMsg (rows : List Order) : String :=
  "Orders with invalid customer_id: " ++ renderList orderCustomerStr rows

/-- The message appended for orders with unresolvable `product_id`. -/
def orphanProductMsg (rows : List Order) : String :=
  "Orders with invalid product_id: " ++ renderList orderProductStr rows

/-- The `issues` list accumulated by `validate_foreign_keys`. -/
def foreignKeyIssues (ds : Dataset) : List String :=
  (if (orphanCustomerRows ds).isEmpty then []
    else [orphanCustomerMsg (orphanCustomerRows ds)]) ++
  (if (orphanProductRows ds).isEmpty then []
    else [orphanProductMsg (orphanProductRows ds)])

/-- Embeds `DataValidator.validate_foreign_keys`: orphaned orders by customer
and by product. -/
def validate_foreign_keys (ds : Dataset) : SectionResult :=
  { label := "foreign_keys"
    valid := (foreignKeyIssues ds).isEmpty
    issues := foreignKeyIssues ds }

/-! ## `validate_data_consistency` -/

/-- The inner join `orders o JOIN products p ON o.product_id = p.product_id`.
A `NULL` `product_id` joins to no product. -/
def orderProductPairs (ds : Dataset) : List (Order × Product) :=
  ds.orders.flatMap fun o =>
    (ds.products.filter fun p => o.product_id = some p.product_id).map
      fun p => (o, p)

/-- The SQL `ABS` function on rationals, written so that it evaluates by
kernel reduction. -/
def ratAbs (x : ℚ) : ℚ :=
  if x < 0 then -x else x

/-- Join rows where `ABS(o.unit_price - p.price) > 0.01`; a `NULL` on
either side makes the comparison not-true. -/
def priceMismatchRows (ds : Dataset) : List (Order × Product) :=
  (orderProductPairs ds).filter fun op =>
    match op.1.unit_price, op.2.price with
    | some u, some v => (0.01 : ℚ) < ratAbs (u - v)
    | _, _ => false

/-- Join rows where `o.quantity > p.stock_quantity + 100`; a `NULL` on
either side makes the comparison not-true. -/
def stockIssueRows (ds : Dataset) : List (Order × Product) :=
  (orderProductPairs ds).filter fun op =>
    match op.1.quantity, op.2.stock_quantity with
    | some q, some s => s + 100 < q
    | _, _ => false

/-- The price-drift message: the code interpolates only
`len(price_mismatches)`, not the rows. -/
def priceMismatchMsg (n : Nat) : String :=
  "Order prices differ from current product prices (may be expected): "
    ++ toString n ++ " cases"

/-- The stock-plausibility message: again only the count is
interpolated. -/
def stockIssueMsg (n : Nat) : String :=
  "Orders with quantities significantly exceeding current stock: "
    ++ toString n ++ " cases"

/-- The `issues` list accumulated by `validate_data_consistency`: the
messages carry only the number of affected join rows. -/
def consistencyIssues (ds : Dataset) : List String :=
  (if (priceMismatchRows ds).isEmpty then []
    else [priceMismatchMsg (priceMismatchRows ds).length]) ++
  (if (stockIssueRows ds).isEmpty then []
    else [stockIssueMsg (stockIssueRows ds).length])

/-- Embeds `DataValidator.validate_data_consistency`: price drift beyond 0.01
and quantities beyond current stock plus a buffer of 100. -/
def validate_data_consistency (ds : Dataset) : SectionResult :=
  { label := "data_consistency"
    valid := (consistencyIssues ds).isEmpty
    issues := consistencyIssues ds }

/-! ## `run_full_validation` -/

/-- The dictionary `run_full_validation` returns: exactly the five
section results, under the keys `customers`, `products`, `orders`,
`foreign_keys`, `consistency`. -/
structure Report where
  customers : SectionResult
  products : SectionResult
  orders : SectionResult
  foreign_keys : SectionResult
  consistency : SectionResult
deriving DecidableEq, Repr

/-- The keys present in the returned dictionary (the literal
`results = {…}` of `run_full_validation`). -/
def Report.keys (_ : Report) : List String :=
  ["customers", "products", "orders", "foreign_keys", "consistency"]

/-- Embeds `DataValidator.run_full_validation`, restricted to its return value:
the five sections.  (The printing side effects are not modelled.) -/
def run_full_validation (ds : Dataset) : Report :=
  { customers := validate_customers ds.customers
    products := validate_products ds.products
    orders := validate_orders ds.orders
    foreign_keys := validate_foreign_keys ds
    consistency := validate_data_consistency ds }

/-- The `all_valid` boolean `run_full_validation` computes (and prints
as the overall status): the conjunction of the `valid` flags of the
customers, products, orders and foreign-keys sections.  It is not
stored in the returned dictionary. -/
def all_valid (ds : Dataset) : Bool :=
  (validate_customers ds.customers).valid &&
  (validate_products ds.products).valid &&
  (validate_orders ds.orders).valid &&
  (validate_foreign_keys ds).valid

/-! ## Spec-side definitions and concrete sample data -/

/-- A well-formed customer record. -/
def okCustomer : Customer :=
  { customer_id := 1, first_name := some "Ann", last_name := some "Ames"
    email := some "ann@ames.com" }

/-- A second well-formed customer, sharing `customer_id` with
`okCustomer` but nothing else. -/
def dupIdCustomer : Customer :=
  { customer_id := 1, first_name := some "Bob", last_name := some "Bond"
    email := some "bob@bond.com" }

/-- Two products that share a `product_id`. -/
def dupIdProductA : Product :=
  { product_id := 7, product_name := some "Widget", price := some 5
    stock_quantity := some 3 }

def dupIdProductB : Product :=
  { product_id := 7, product_name := some "Gadget", price := some 6
    stock_quantity := some 4 }

/-- A product priced 10 with no stock, for the drift examples. -/
def driftProduct : Product :=
  { product_id := 1, product_name := some "Widget", price := some 10
    stock_quantity := some 0 }

/-- An order of `driftProduct` at unit price 20 (drift 10). -/
def driftOrder1 : Order :=
  { order_id := 1, customer_id := some 1, product_id := some 1
    quantity := some 1, unit_price := some 20 }

/-- The same drifting order under a different `order_id`. -/
def driftOrder2 : Order :=
  { order_id := 2, customer_id := some 1, product_id := some 1
    quantity := some 1, unit_price := some 20 }

/-- One drifting order with key 1. -/
def driftDatasetA : Dataset :=
  { customers := [okCustomer], products := [driftProduct]
    orders := [driftOrder1] }

/-- One drifting order with key 2. -/
def driftDatasetB : Dataset :=
  { customers := [okCustomer], products := [driftProduct]
    orders := [driftOrder2] }

/-- The dataset with three empty collections. -/
def emptyDataset : Dataset :=
  { customers := [], products := [], orders := [] }

/-- Product at the tolerant side of the drift boundary. -/
def tolProduct : Product :=
  { product_id := 1, product_name := some "Tol", price := some 100.009
    stock_quantity := some 0 }

/-- Product just over the drift boundary. -/
def overProduct : Product :=
  { product_id := 2, product_name := some "Over", price := some 100.02
    stock_quantity := some 0 }

/-- Order of `tolProduct` at unit price 100. -/
def tolOrder : Order :=
  { order_id := 1, customer_id := some 1, product_id := some 1
    quantity := some 1, unit_price := some 100 }

/-- Order of `overProduct` at unit price 100. -/
def overOrder : Order :=
  { order_id := 2, customer_id := some 1, product_id := some 2
    quantity := some 1, unit_price := some 100 }

/-- Dataset exercising both sides of the 0.01 drift boundary. -/
def boundaryDataset : Dataset :=
  { customers := [okCustomer], products := [tolProduct, overProduct]
    orders := [tolOrder, overOrder] }

/-- An order whose `customer_id` (99) matches no customer. -/
def orphanOrder : Order :=
  { order_id := 1, customer_id := some 99, product_id := some 1
    quantity := some 1, unit_price := some 10 }

/-- Dataset with one orphaned order. -/
def orphanDataset : Dataset :=
  { customers := [okCustomer], products := [driftProduct]
    orders := [orphanOrder] }

/-- The spec's email-format rule, written from the spec's words: the
value contains an `@` followed eventually by a `.` after the `@`. -/
def EmailSpecOk (s : String) : Prop :=
  ∃ l₁ l₂ l₃ : List Char, s.data = l₁ ++ '@' :: (l₂ ++ '.' :: l₃)

/-- A customer whose email has a `.` only before the `@`. -/
def badEmailCustomer : Customer :=
  { customer_id := 3, first_name := some "Cid", last_name := some "Cole"
    email := some "cid.cole@com" }

/-- Product with 50 in stock for the stock-buffer boundary. -/
def stockProduct : Product :=
  { product_id := 3, product_name := some "Stocked", price := some 10
    stock_quantity := some 50 }

/-- Order of exactly stock + 100 units. -/
def stockOrderAtBuffer : Order :=
  { order_id := 11, customer_id := some 1, product_id := some 3
    quantity := some 150, unit_price := some 10 }

/-- Order of stock + 101 units. -/
def stockOrderOverBuffer : Order :=
  { order_id := 12, customer_id := some 1, product_id := some 3
    quantity := some 151, unit_price := some 10 }

/-- Dataset exercising both sides of the stock buffer boundary. -/
def stockDataset : Dataset :=
  { customers := [okCustomer], products := [stockProduct]
    orders := [stockOrderAtBuffer, stockOrderOverBuffer] }

/-- The hypothesis list of the all-valid-dataset claim, as stated: no
duplicate keys, all emails matching the minimal pattern, all orders
referencing existing customers and products, prices and unit prices
non-negative, stock non-negative, quantities positive. -/
def CleanDatasetClaim (ds : Dataset) : Prop :=
  (ds.customers.map (·.customer_id)).Nodup ∧
  (ds.products.map (·.product_id)).Nodup ∧
  (∀ c ∈ ds.customers, c.email.any sqlLikeAtDot = true) ∧
  (∀ o ∈ ds.orders, ∃ c ∈ ds.customers, o.customer_id = some c.customer_id) ∧
  (∀ o ∈ ds.orders, ∃ p ∈ ds.products, o.product_id = some p.product_id) ∧
  (∀ p ∈ ds.products, p.price.any (fun v => 0 ≤ v) = true) ∧
  (∀ o ∈ ds.orders, o.unit_price.any (fun u => 0 ≤ u) = true) ∧
  (∀ p ∈ ds.products, p.stock_quantity.all (fun s => 0 ≤ s) = true) ∧
  (∀ o ∈ ds.orders, o.quantity.any (fun q => 0 < q) = true)

/-- A second clean customer. -/
def okCustomer2 : Customer :=
  { customer_id := 2, first_name := some "Eve", last_name := some "Earl"
    email := some "eve@earl.org" }

/-- A clean order of `stockProduct` at the product's own price. -/
def validOrder : Order :=
  { order_id := 21, customer_id := some 1, product_id := some 3
    quantity := some 2, unit_price := some 10 }

/-- A dataset satisfying every amended hypothesis. -/
def validDataset : Dataset :=
  { customers := [okCustomer, okCustomer2], products := [stockProduct]
    orders := [validOrder] }

/-- An order with NULL foreign keys. -/
def nullFkOrder : Order :=
  { order_id := 31, customer_id := none, product_id := none
    quantity := some 1, unit_price := some 1 }

/-- Dataset containing the NULL-foreign-key order. -/
def nullFkDataset : Dataset :=
  { customers := [okCustomer], products := [driftProduct]
    orders := [nullFkOrder] }

/-! ## Helper lemmas -/

theorem ratAbs_eq_abs (x : ℚ) : ratAbs x = |x| := by
  unfold ratAbs
  rcases lt_or_le x 0 with h | h
  · simp [h, abs_of_neg h]
  · simp [not_lt.mpr h, abs_of_nonneg h]

theorem isEmpty_eq_false_of_ne_nil {l : List α} (h : l ≠ []) :
    l.isEmpty = false := by
  cases l with
  | nil => exact absurd rfl h
  | cons a t => rfl

theorem two_mem_one_lt_length {l : List α} {a b : α}
    (ha : a ∈ l) (hb : b ∈ l) (hne : a ≠ b) : 1 < l.length := by
  match l with
  | [] => cases ha
  | [x] =>
    simp only [List.mem_singleton] at ha hb
    exact absurd (ha.trans hb.symm) hne
  | x :: y :: t => simp [List.length]

/-- Under a duplicate-free key column, every key's group has
multiplicity at most 1. -/
theorem length_filter_key_le_one [DecidableEq β] {l : List α} {f : α → β}
    (h : (l.map f).Nodup) (e : β) :
    (l.filter fun a => f a = e).length ≤ 1 := by
  induction l with
  | nil => simp
  | cons a t ih =>
    simp only [List.map_cons, List.nodup_cons] at h
    by_cases hae : f a = e
    · have ht : t.filter (fun x => f x = e) = [] := by
        apply List.filter_eq_nil_iff.mpr
        intro b hb
        simp only [decide_eq_true_eq]
        intro hfb
        exact h.1 (List.mem_map.mpr ⟨b, hb, by rw [hfb, hae]⟩)
      simp [List.filter_cons, hae, ht]
    · simp only [List.filter_cons, hae, decide_eq_true_eq, if_false]
      exact ih h.2

/-- A `GROUP BY … HAVING count > 1` query over a duplicate-free column
returns no groups. -/
theorem sqlGroupCounts_eq_nil [DecidableEq β] {l : List α} {f : α → β}
    (h : (l.map f).Nodup) :
    sqlGroupCounts l f = [] := by
  unfold sqlGroupCounts
  apply List.filter_eq_nil_iff.mpr
  intro g hg
  rcases List.mem_map.mp hg with ⟨e, _, rfl⟩
  simpa using length_filter_key_le_one h e

/-- Two distinct records sharing a key value make the
`GROUP BY … HAVING count > 1` query return a group. -/
theorem sqlGroupCounts_ne_nil [DecidableEq β] {l : List α} {f : α → β}
    {a b : α} (ha : a ∈ l) (hb : b ∈ l) (hne : a ≠ b) (hkey : f a = f b) :
    sqlGroupCounts l f ≠ [] := by
  have hmemf : f a ∈ (l.map f).dedup :=
    List.mem_dedup.mpr (List.mem_map.mpr ⟨a, ha, rfl⟩)
  have hlen : 1 < (l.filter fun x => f x = f a).length := by
    apply two_mem_one_lt_length (a := a) (b := b) _ _ hne
    · exact List.mem_filter.mpr ⟨ha, by simp⟩
    · exact List.mem_filter.mpr ⟨hb, by simp [hkey]⟩
  apply List.ne_nil_of_mem
    (a := (f a, (l.filter fun x => f x = f a).length))
  unfold sqlGroupCounts
  exact List.mem_filter.mpr
    ⟨List.mem_map.mpr ⟨f a, hmemf, rfl⟩, by simpa using hlen⟩

/-- The scan `likeAtDot` decides exactly the split property
"an `@` with a `.` somewhere after it". -/
theorem likeAtDot_iff (cs : List Char) :
    likeAtDot cs = true ↔
      ∃ l₁ l₂ l₃ : List Char, cs = l₁ ++ '@' :: (l₂ ++ '.' :: l₃) := by
  induction cs with
  | nil => simp [likeAtDot]
  | cons c t ih =>
    by_cases hc : c = '@'
    · subst hc
      simp only [likeAtDot, if_pos rfl]
      constructor
      · intro h
        have hmem : '.' ∈ t := List.elem_iff.mp h
        rcases List.append_of_mem hmem with ⟨l₂, l₃, rfl⟩
        exact ⟨[], l₂, l₃, rfl⟩
      · rintro ⟨l₁, l₂, l₃, heq⟩
        apply List.elem_iff.mpr
        cases l₁ with
        | nil =>
          simp only [List.nil_append, List.cons.injEq] at heq
          rw [heq.2]
          exact List.mem_append.mpr (Or.inr (List.mem_cons_self _ _))
        | cons d l₁ =>
          simp only [List.cons_append, List.cons.injEq] at heq
          rw [heq.2]
          refine List.mem_append.mpr (Or.inr ?_)
          exact List.mem_cons_of_mem _
            (List.mem_append.mpr (Or.inr (List.mem_cons_self _ _)))
    · simp only [likeAtDot, if_neg hc]
      rw [ih]
      constructor
      · rintro ⟨l₁, l₂, l₃, rfl⟩
        exact ⟨c :: l₁, l₂, l₃, rfl⟩
      · rintro ⟨l₁, l₂, l₃, heq⟩
        cases l₁ with
        | nil =>
          simp only [List.nil_append, List.cons.injEq] at heq
          exact absurd heq.1 hc
        | cons d l₁ =>
          simp only [List.cons_append, List.cons.injEq] at heq
          exact ⟨l₁, l₂, l₃, heq.2⟩

theorem isEmpty_eq_of_length_eq {l : List α} {l' : List β}
    (h : l.length = l'.length) : l.isEmpty = l'.isEmpty := by
  cases l <;> cases l' <;> simp_all

/-! ## C1 -/

/-- C1 counterexample: the dictionary returned by
`run_full_validation` does not contain an `overall_valid` key (the
overall status is computed and printed, but not stored in the report),
exhibited on the empty dataset. -/
theorem report_has_no_overall_valid_key :
    "overall_valid" ∉ (run_full_validation emptyDataset).keys := by
  decide

/-- C1 (amended): the returned report holds exactly the five section
keys; the overall status `run_full_validation` computes is true iff the
customers, products, orders and foreign-keys sections are all valid,
and it is a function of those four sections only — the consistency
section does not occur in it. -/
theorem overall_status_semantics (ds : Dataset) :
    (run_full_validation ds).keys =
      ["customers", "products", "orders", "foreign_keys", "consistency"]
  ∧ all_valid ds =
      ((run_full_validation ds).customers.valid &&
       (run_full_validation ds).products.valid &&
       (run_full_validation ds).orders.valid &&
       (run_full_validation ds).foreign_keys.valid)
  ∧ (all_valid ds = true ↔
      (run_full_validation ds).customers.valid = true ∧
      (run_full_validation ds).products.valid = true ∧
      (run_full_validation ds).orders.valid = true ∧
      (run_full_validation ds).foreign_keys.valid = true) := by
  refine ⟨rfl, rfl, ?_⟩
  simp [all_valid, run_full_validation, Bool.and_eq_true, and_assoc]

/-! ## C2 -/

/-- C2 counterexample: two distinct customers with the same
`customer_id` (a duplicate primary key) and otherwise clean fields
produce an empty customers issue list and `valid = true`:
`validate_customers` has no duplicate-primary-key check. -/
theorem customers_duplicate_pk_not_flagged :
    okCustomer ≠ dupIdCustomer
  ∧ okCustomer.customer_id = dupIdCustomer.customer_id
  ∧ (validate_customers [okCustomer, dupIdCustomer]).issues = []
  ∧ (validate_customers [okCustomer, dupIdCustomer]).valid = true := by
  decide

/-- C2 (amended): duplicate primary keys are flagged for products only:
two distinct product records sharing a `product_id` make the products
section carry the duplicate-product-IDs issue and `valid = false`.
The customers section performs no duplicate-primary-key check. -/
theorem products_duplicate_pk_flagged (ps : List Product) (p q : Product)
    (hp : p ∈ ps) (hq : q ∈ ps) (hne : p ≠ q)
    (hid : p.product_id = q.product_id) :
    duplicateProductIdMsg (duplicateProductIdGroups ps) ∈
      (validate_products ps).issues
  ∧ (validate_products ps).valid = false := by
  have hgroups : duplicateProductIdGroups ps ≠ [] :=
    sqlGroupCounts_ne_nil hp hq hne hid
  have hie : (duplicateProductIdGroups ps).isEmpty = false :=
    isEmpty_eq_false_of_ne_nil hgroups
  have hmem : duplicateProductIdMsg (duplicateProductIdGroups ps) ∈
      productsIssues ps := by
    unfold productsIssues
    simp [hie]
  exact ⟨hmem, isEmpty_eq_false_of_ne_nil (List.ne_nil_of_mem hmem)⟩

/-- Witness for `products_duplicate_pk_flagged` at the concrete pair
`dupIdProductA`, `dupIdProductB`. -/
theorem products_duplicate_pk_flagged_witness :
    duplicateProductIdMsg
        (duplicateProductIdGroups [dupIdProductA, dupIdProductB]) ∈
      (validate_products [dupIdProductA, dupIdProductB]).issues
  ∧ (validate_products [dupIdProductA, dupIdProductB]).valid = false :=
  products_duplicate_pk_flagged [dupIdProductA, dupIdProductB]
    dupIdProductA dupIdProductB (by decide) (by decide) (by decide)
    (by decide)

/-! ## C3 -/

/-- C3 counterexample: two datasets whose sets of drifting orders
differ (order 1 versus order 2) produce character-for-character
identical consistency sections — the issue entries are free-text
strings carrying only a count, not structured descriptors listing the
affected keys, so no consumer of the report can tell which records are
affected. -/
theorem consistency_issues_not_structured :
    validate_data_consistency driftDatasetA =
      validate_data_consistency driftDatasetB
  ∧ priceMismatchRows driftDatasetA ≠ priceMismatchRows driftDatasetB := by
  decide

/-- C3 (amended): issue entries are free-text strings, one per violated
rule; in the consistency section the string carries only the count of
affected join rows, so the whole section is a function of the two
counts alone. -/
theorem consistency_section_factors_through_counts (ds ds' : Dataset)
    (hdrift : (priceMismatchRows ds).length = (priceMismatchRows ds').length)
    (hstock : (stockIssueRows ds).length = (stockIssueRows ds').length) :
    validate_data_consistency ds = validate_data_consistency ds' := by
  have e1 : (priceMismatchRows ds).isEmpty = (priceMismatchRows ds').isEmpty :=
    isEmpty_eq_of_length_eq hdrift
  have e2 : (stockIssueRows ds).isEmpty = (stockIssueRows ds').isEmpty :=
    isEmpty_eq_of_length_eq hstock
  have hIssues : consistencyIssues ds = consistencyIssues ds' := by
    unfold consistencyIssues
    rw [e1, e2, hdrift, hstock]
  unfold validate_data_consistency
  rw [hIssues]

/-- Witness for `consistency_section_factors_through_counts` at the two
concrete drift datasets. -/
theorem consistency_section_factors_witness :
    validate_data_consistency driftDatasetA =
      validate_data_consistency driftDatasetB :=
  consistency_section_factors_through_counts driftDatasetA driftDatasetB
    (by decide) (by decide)

/-! ## C4 -/

/-- C4: for an order whose product exists, the price-drift check records
the join row iff `|unit_price - price|` strictly exceeds 0.01; the
overall status remains the conjunction of the four hard sections,
untouched by this advisory flag. -/
theorem price_drift_boundary (ds : Dataset) (o : Order) (p : Product)
    (ho : o ∈ ds.orders) (hp : p ∈ ds.products)
    (hmatch : o.product_id = some p.product_id)
    (u v : ℚ) (hu : o.unit_price = some u) (hv : p.price = some v) :
    ((o, p) ∈ priceMismatchRows ds ↔ (0.01 : ℚ) < |u - v|)
  ∧ all_valid ds =
      ((validate_customers ds.customers).valid &&
       (validate_products ds.products).valid &&
       (validate_orders ds.orders).valid &&
       (validate_foreign_keys ds).valid) := by
  refine ⟨?_, rfl⟩
  have hpair : (o, p) ∈ orderProductPairs ds := by
    unfold orderProductPairs
    exact List.mem_flatMap.mpr
      ⟨o, ho, List.mem_map.mpr
        ⟨p, List.mem_filter.mpr ⟨hp, by simp [hmatch]⟩, rfl⟩⟩
  unfold priceMismatchRows
  rw [List.mem_filter]
  simp [hpair, hu, hv, ratAbs_eq_abs]

/-- Witness for `price_drift_boundary` at the concrete boundary
dataset: a drift of 0.009 is not recorded and a drift of 0.02 is. -/
theorem price_drift_boundary_witness :
    (((tolOrder, tolProduct) ∈ priceMismatchRows boundaryDataset ↔
        (0.01 : ℚ) < |(100 : ℚ) - 100.009|)
      ∧ all_valid boundaryDataset =
          ((validate_customers boundaryDataset.customers).valid &&
           (validate_products boundaryDataset.products).valid &&
           (validate_orders boundaryDataset.orders).valid &&
           (validate_foreign_keys boundaryDataset).valid))
  ∧ (tolOrder, tolProduct) ∉ priceMismatchRows boundaryDataset
  ∧ (overOrder, overProduct) ∈ priceMismatchRows boundaryDataset :=
  ⟨price_drift_boundary boundaryDataset tolOrder tolProduct (by decide)
      (by decide) (by decide) 100 100.009 (by decide) (by decide),
    by decide, by decide⟩

/-! ## C5 -/

/-- C5: an order whose `customer_id` matches no customer row lands in
the foreign-keys issues and forces `foreign_keys.valid = false`, while
the customers and products sections are functions of their own
collections only — replacing the orders list arbitrarily leaves them
unchanged. -/
theorem orphan_order_detection (ds : Dataset) (o : Order)
    (ho : o ∈ ds.orders)
    (horph : ∀ c ∈ ds.customers, some c.customer_id ≠ o.customer_id) :
    o ∈ orphanCustomerRows ds
  ∧ orphanCustomerMsg (orphanCustomerRows ds) ∈
      (validate_foreign_keys ds).issues
  ∧ (validate_foreign_keys ds).valid = false
  ∧ (∀ os' : List Order,
      (run_full_validation
          { customers := ds.customers, products := ds.products
            orders := os' }).customers
        = (run_full_validation ds).customers
    ∧ (run_full_validation
          { customers := ds.customers, products := ds.products
            orders := os' }).products
        = (run_full_validation ds).products) := by
  have hmemo : o ∈ orphanCustomerRows ds := by
    unfold orphanCustomerRows
    refine List.mem_filter.mpr ⟨ho, ?_⟩
    rw [Bool.not_eq_true', List.any_eq_false]
    intro c hc
    simp [(horph c hc).symm]
  have hmsg : orphanCustomerMsg (orphanCustomerRows ds) ∈
      foreignKeyIssues ds := by
    have hie : (orphanCustomerRows ds).isEmpty = false :=
      isEmpty_eq_false_of_ne_nil (List.ne_nil_of_mem hmemo)
    unfold foreignKeyIssues
    simp [hie]
  exact ⟨hmemo, hmsg,
    isEmpty_eq_false_of_ne_nil (List.ne_nil_of_mem hmsg),
    fun os' => ⟨rfl, rfl⟩⟩

/-- Witness for `orphan_order_detection` at `orphanDataset`. -/
theorem orphan_order_detection_witness :
    orphanOrder ∈ orphanCustomerRows orphanDataset
  ∧ orphanCustomerMsg (orphanCustomerRows orphanDataset) ∈
      (validate_foreign_keys orphanDataset).issues
  ∧ (validate_foreign_keys orphanDataset).valid = false := by
  have h := orphan_order_detection orphanDataset orphanOrder
    (by decide) (by decide)
  exact ⟨h.1, h.2.1, h.2.2.1⟩

/-! ## C6 -/

/-- C6: the `LIKE '%@%.%'` test passes exactly the emails the spec's
rule admits; a present email is fetched by the invalid-format query iff
it fails the test, and a non-empty fetch puts the invalid-email-format
issue in the customers section. -/
theorem email_format_check (cs : List Customer) (c : Customer) (s : String)
    (hc : c ∈ cs) (hs : c.email = some s) :
    (sqlLikeAtDot s = true ↔ EmailSpecOk s)
  ∧ (c ∈ invalidEmailRows cs ↔ sqlLikeAtDot s = false)
  ∧ (c ∈ invalidEmailRows cs →
      invalidEmailMsg (invalidEmailRows cs) ∈ (validate_customers cs).issues) := by
  refine ⟨likeAtDot_iff s.data, ?_, ?_⟩
  · unfold invalidEmailRows
    rw [List.mem_filter]
    simp [hc, hs, Bool.not_eq_true']
  · intro hmem
    have hie : (invalidEmailRows cs).isEmpty = false :=
      isEmpty_eq_false_of_ne_nil (List.ne_nil_of_mem hmem)
    show _ ∈ customersIssues cs
    unfold customersIssues
    simp [hie]

/-- Witness for `email_format_check` on `badEmailCustomer`, whose email
`"cid.cole@com"` has no `.` after its `@`. -/
theorem email_format_check_witness :
    (sqlLikeAtDot "cid.cole@com" = true ↔ EmailSpecOk "cid.cole@com")
  ∧ (badEmailCustomer ∈ invalidEmailRows [okCustomer, badEmailCustomer] ↔
      sqlLikeAtDot "cid.cole@com" = false)
  ∧ invalidEmailMsg (invalidEmailRows [okCustomer, badEmailCustomer]) ∈
      (validate_customers [okCustomer, badEmailCustomer]).issues := by
  have h := email_format_check [okCustomer, badEmailCustomer]
    badEmailCustomer "cid.cole@com" (by decide) (by decide)
  exact ⟨h.1, h.2.1, h.2.2 (by decide)⟩

/-! ## C7 -/

/-- C7: for an order whose product exists, the stock-plausibility check
records the join row iff the quantity strictly exceeds
`stock_quantity + 100`; the overall status stays the conjunction of the
four hard sections, so the flag is advisory only. -/
theorem stock_buffer_boundary (ds : Dataset) (o : Order) (p : Product)
    (ho : o ∈ ds.orders) (hp : p ∈ ds.products)
    (hmatch : o.product_id = some p.product_id)
    (q s : Int) (hq : o.quantity = some q) (hs : p.stock_quantity = some s) :
    ((o, p) ∈ stockIssueRows ds ↔ s + 100 < q)
  ∧ all_valid ds =
      ((validate_customers ds.customers).valid &&
       (validate_products ds.products).valid &&
       (validate_orders ds.orders).valid &&
       (validate_foreign_keys ds).valid) := by
  refine ⟨?_, rfl⟩
  have hpair : (o, p) ∈ orderProductPairs ds := by
    unfold orderProductPairs
    exact List.mem_flatMap.mpr
      ⟨o, ho, List.mem_map.mpr
        ⟨p, List.mem_filter.mpr ⟨hp, by simp [hmatch]⟩, rfl⟩⟩
  unfold stockIssueRows
  rw [List.mem_filter]
  simp [hpair, hq, hs]

/-- Witness for `stock_buffer_boundary` at `stockDataset`: quantity
stock + 100 is not recorded, stock + 101 is. -/
theorem stock_buffer_boundary_witness :
    (((stockOrderOverBuffer, stockProduct) ∈ stockIssueRows stockDataset ↔
        (50 : Int) + 100 < 151)
      ∧ all_valid stockDataset =
          ((validate_customers stockDataset.customers).valid &&
           (validate_products stockDataset.products).valid &&
           (validate_orders stockDataset.orders).valid &&
           (validate_foreign_keys stockDataset).valid))
  ∧ (stockOrderAtBuffer, stockProduct) ∉ stockIssueRows stockDataset
  ∧ (stockOrderOverBuffer, stockProduct) ∈ stockIssueRows stockDataset :=
  ⟨stock_buffer_boundary stockDataset stockOrderOverBuffer stockProduct
      (by decide) (by decide) (by decide) 151 50 (by decide) (by decide),
    by decide, by decide⟩

theorem filter_eq_nil_of_pred_false {l : List α} {p : α → Bool}
    (h : ∀ a ∈ l, p a = false) : l.filter p = [] :=
  List.filter_eq_nil_iff.mpr (fun a ha => by simp [h a ha])

/-! ## C8 -/

/-- C8 counterexample: `driftDatasetA` satisfies every hypothesis the
claim states, yet its consistency section's issues list is not empty
(the order's unit price 20 drifts from the product price 10), so not
every section's issues list is empty. -/
theorem clean_dataset_consistency_not_empty :
    CleanDatasetClaim driftDatasetA
  ∧ (run_full_validation driftDatasetA).consistency.issues ≠ [] := by
  constructor
  · show _ ∧ _
    decide
  · decide

/-- C8 (amended): on a dataset with no duplicate customer or product
keys, no duplicate emails, no NULL required fields, all emails matching
the pattern, all orders referencing existing customers and products,
non-negative prices, unit prices and stock and positive quantities, the
four hard sections are valid with empty issue lists and the computed
overall status is true; the consistency section is guaranteed empty
only when there are no orders (in particular for three empty
collections), since advisory drift or stock findings can occur on
otherwise valid data. -/
theorem clean_dataset_validates (ds : Dataset)
    (hck : (ds.customers.map (·.customer_id)).Nodup)
    (hpk : (ds.products.map (·.product_id)).Nodup)
    (hde : (ds.customers.map (·.email)).Nodup)
    (hnames : ∀ c ∈ ds.customers,
      c.first_name.isSome = true ∧ c.last_name.isSome = true)
    (hemail : ∀ c ∈ ds.customers, c.email.any sqlLikeAtDot = true)
    (hpname : ∀ p ∈ ds.products, p.product_name.isSome = true)
    (hprice : ∀ p ∈ ds.products, p.price.any (fun v => 0 ≤ v) = true)
    (hstock : ∀ p ∈ ds.products, p.stock_quantity.all (fun s => 0 ≤ s) = true)
    (hocust : ∀ o ∈ ds.orders, ∃ c ∈ ds.customers,
      o.customer_id = some c.customer_id)
    (hoprod : ∀ o ∈ ds.orders, ∃ p ∈ ds.products,
      o.product_id = some p.product_id)
    (hqty : ∀ o ∈ ds.orders, o.quantity.any (fun q => 0 < q) = true)
    (huprice : ∀ o ∈ ds.orders, o.unit_price.any (fun u => 0 ≤ u) = true) :
    (run_full_validation ds).customers.valid = true
  ∧ (run_full_validation ds).customers.issues = []
  ∧ (run_full_validation ds).products.valid = true
  ∧ (run_full_validation ds).products.issues = []
  ∧ (run_full_validation ds).orders.valid = true
  ∧ (run_full_validation ds).orders.issues = []
  ∧ (run_full_validation ds).foreign_keys.valid = true
  ∧ (run_full_validation ds).foreign_keys.issues = []
  ∧ all_valid ds = true
  ∧ (ds.orders = [] →
      (run_full_validation ds).consistency.valid = true ∧
      (run_full_validation ds).consistency.issues = []) := by
  have hcn : customersNullRows ds.customers = [] := by
    apply filter_eq_nil_of_pred_false
    intro c hc
    have h1 := (hnames c hc).1
    have h2 := (hnames c hc).2
    have h3 := hemail c hc
    cases he : c.email with
    | none => rw [he] at h3; simp [Option.any] at h3
    | some s =>
      simp only [decide_eq_false_iff_not]
      push_neg
      exact ⟨Option.isSome_iff_ne_none.mp h1,
        Option.isSome_iff_ne_none.mp h2, by simp [he]⟩
  have hce : duplicateEmailGroups ds.customers = [] :=
    sqlGroupCounts_eq_nil hde
  have hcf : invalidEmailRows ds.customers = [] := by
    apply filter_eq_nil_of_pred_false
    intro c hc
    have h3 := hemail c hc
    cases he : c.email with
    | none => rfl
    | some s => rw [he] at h3; simp [Option.any] at h3; simp [h3]
  have hcI : customersIssues ds.customers = [] := by
    unfold customersIssues
    rw [hcn, hce, hcf]
    simp
  have hpn : productsNullRows ds.products = [] := by
    apply filter_eq_nil_of_pred_false
    intro p hp
    have h1 := hpname p hp
    have h2 := hprice p hp
    cases he : p.price with
    | none => rw [he] at h2; simp [Option.any] at h2
    | some v =>
      simp only [decide_eq_false_iff_not]
      push_neg
      exact ⟨Option.isSome_iff_ne_none.mp h1, by simp [he]⟩
  have hpp : negativePriceRows ds.products = [] := by
    apply filter_eq_nil_of_pred_false
    intro p hp
    have h2 := hprice p hp
    cases he : p.price with
    | none => rfl
    | some v =>
      rw [he] at h2
      simp [Option.any, decide_eq_true_eq] at h2
      simp [not_lt.mpr h2]
  have hps : negativeStockRows ds.products = [] := by
    apply filter_eq_nil_of_pred_false
    intro p hp
    have h2 := hstock p hp
    cases he : p.stock_quantity with
    | none => rfl
    | some s =>
      rw [he] at h2
      simp [Option.all, decide_eq_true_eq] at h2
      simp [not_lt.mpr h2]
  have hpd : duplicateProductIdGroups ds.products = [] :=
    sqlGroupCounts_eq_nil hpk
  have hpI : productsIssues ds.products = [] := by
    unfold productsIssues
    rw [hpn, hpp, hps, hpd]
    simp
  have hon : ordersNullRows ds.orders = [] := by
    apply filter_eq_nil_of_pred_false
    intro o ho
    rcases hocust o ho with ⟨c, _, hcid⟩
    rcases hoprod o ho with ⟨p, _, hpid⟩
    have h3 := hqty o ho
    have h4 := huprice o ho
    simp only [decide_eq_false_iff_not]
    push_neg
    refine ⟨by simp [hcid], by simp [hpid], ?_, ?_⟩
    · cases he : o.quantity with
      | none => rw [he] at h3; simp [Option.any] at h3
      | some q => simp
    · cases he : o.unit_price with
      | none => rw [he] at h4; simp [Option.any] at h4
      | some u => simp
  have hoq : invalidQuantityRows ds.orders = [] := by
    apply filter_eq_nil_of_pred_false
    intro o ho
    have h3 := hqty o ho
    cases he : o.quantity with
    | none => rfl
    | some q =>
      rw [he] at h3
      simp [Option.any, decide_eq_true_eq] at h3
      simp [not_le.mpr h3]
  have hop : negativeUnitPriceRows ds.orders = [] := by
    apply filter_eq_nil_of_pred_false
    intro o ho
    have h4 := huprice o ho
    cases he : o.unit_price with
    | none => rfl
    | some u =>
      rw [he] at h4
      simp [Option.any, decide_eq_true_eq] at h4
      simp [not_lt.mpr h4]
  have hoI : ordersIssues ds.orders = [] := by
    unfold ordersIssues
    rw [hon, hoq, hop]
    simp
  have hfc : orphanCustomerRows ds = [] := by
    apply filter_eq_nil_of_pred_false
    intro o ho
    rcases hocust o ho with ⟨c, hc, hcid⟩
    simp only [Bool.not_eq_false']
    exact List.any_eq_true.mpr ⟨c, hc, by simp [hcid]⟩
  have hfp : orphanProductRows ds = [] := by
    apply filter_eq_nil_of_pred_false
    intro o ho
    rcases hoprod o ho with ⟨p, hp, hpid⟩
    simp only [Bool.not_eq_false']
    exact List.any_eq_true.mpr ⟨p, hp, by simp [hpid]⟩
  have hfI : foreignKeyIssues ds = [] := by
    unfold foreignKeyIssues
    rw [hfc, hfp]
    simp
  refine ⟨?_, ?_, ?_, ?_, ?_, ?_, ?_, ?_, ?_, ?_⟩
  · show (customersIssues ds.customers).isEmpty = true; rw [hcI]; rfl
  · exact hcI
  · show (productsIssues ds.products).isEmpty = true; rw [hpI]; rfl
  · exact hpI
  · show (ordersIssues ds.orders).isEmpty = true; rw [hoI]; rfl
  · exact hoI
  · show (foreignKeyIssues ds).isEmpty = true; rw [hfI]; rfl
  · exact hfI
  · show ((customersIssues ds.customers).isEmpty &&
      (productsIssues ds.products).isEmpty &&
      (ordersIssues ds.orders).isEmpty &&
      (foreignKeyIssues ds).isEmpty) = true
    rw [hcI, hpI, hoI, hfI]
    rfl
  · intro hnil
    have hpair : orderProductPairs ds = [] := by
      unfold orderProductPairs
      rw [hnil]
      rfl
    have hcons : consistencyIssues ds = [] := by
      unfold consistencyIssues priceMismatchRows stockIssueRows
      rw [hpair]
      rfl
    constructor
    · show (consistencyIssues ds).isEmpty = true; rw [hcons]; rfl
    · exact hcons

/-- Witness for `clean_dataset_validates`, applied at the non-empty
`validDataset` and, for the consistency conjunct, at `emptyDataset`. -/
theorem clean_dataset_validates_witness :
    all_valid validDataset = true
  ∧ (run_full_validation validDataset).customers.issues = []
  ∧ (run_full_validation validDataset).orders.issues = []
  ∧ (run_full_validation emptyDataset).consistency.valid = true := by
  have h := clean_dataset_validates validDataset (by decide) (by decide)
    (by decide) (by decide) (by decide) (by decide) (by decide) (by decide)
    (by decide) (by decide) (by decide) (by decide)
  have h0 := clean_dataset_validates emptyDataset (by decide) (by decide)
    (by decide) (by decide) (by decide) (by decide) (by decide) (by decide)
    (by decide) (by decide) (by decide) (by decide)
  exact ⟨h.2.2.2.2.2.2.2.2.1, h.2.1, h.2.2.2.2.2.1,
    (h0.2.2.2.2.2.2.2.2.2 rfl).1⟩

/-! ## C9 -/

/-- C9: an order with a NULL `customer_id` (resp. `product_id`) is
fetched both by the orders NULL-required-field query and by the
orphaned-orders query — a NULL foreign key satisfies the left join's
condition for no row — so it is reported in `orders.issues` and again
in `foreign_keys.issues`. -/
theorem null_fk_double_reported (ds : Dataset) (o : Order)
    (ho : o ∈ ds.orders) :
    (o.customer_id = none →
        o ∈ ordersNullRows ds.orders
      ∧ ordersNullMsg (ordersNullRows ds.orders) ∈
          (validate_orders ds.orders).issues
      ∧ o ∈ orphanCustomerRows ds
      ∧ orphanCustomerMsg (orphanCustomerRows ds) ∈
          (validate_foreign_keys ds).issues)
  ∧ (o.product_id = none →
        o ∈ ordersNullRows ds.orders
      ∧ ordersNullMsg (ordersNullRows ds.orders) ∈
          (validate_orders ds.orders).issues
      ∧ o ∈ orphanProductRows ds
      ∧ orphanProductMsg (orphanProductRows ds) ∈
          (validate_foreign_keys ds).issues) := by
  have hnullmem : (o.customer_id = none ∨ o.product_id = none) →
      o ∈ ordersNullRows ds.orders ∧
      ordersNullMsg (ordersNullRows ds.orders) ∈
        (validate_orders ds.orders).issues := by
    intro hn
    have hmem : o ∈ ordersNullRows ds.orders := by
      unfold ordersNullRows
      refine List.mem_filter.mpr ⟨ho, ?_⟩
      rcases hn with hn | hn <;> simp [hn]
    refine ⟨hmem, ?_⟩
    have hie : (ordersNullRows ds.orders).isEmpty = false :=
      isEmpty_eq_false_of_ne_nil (List.ne_nil_of_mem hmem)
    show _ ∈ ordersIssues ds.orders
    unfold ordersIssues
    simp [hie]
  constructor
  · intro hn
    rcases hnullmem (Or.inl hn) with ⟨h1, h2⟩
    have hmem : o ∈ orphanCustomerRows ds := by
      unfold orphanCustomerRows
      refine List.mem_filter.mpr ⟨ho, ?_⟩
      rw [Bool.not_eq_true', List.any_eq_false]
      intro c _
      simp [hn]
    refine ⟨h1, h2, hmem, ?_⟩
    have hie : (orphanCustomerRows ds).isEmpty = false :=
      isEmpty_eq_false_of_ne_nil (List.ne_nil_of_mem hmem)
    show _ ∈ foreignKeyIssues ds
    unfold foreignKeyIssues
    simp [hie]
  · intro hn
    rcases hnullmem (Or.inr hn) with ⟨h1, h2⟩
    have hmem : o ∈ orphanProductRows ds := by
      unfold orphanProductRows
      refine List.mem_filter.mpr ⟨ho, ?_⟩
      rw [Bool.not_eq_true', List.any_eq_false]
      intro p _
      simp [hn]
    refine ⟨h1, h2, hmem, ?_⟩
    have hie : (orphanProductRows ds).isEmpty = false :=
      isEmpty_eq_false_of_ne_nil (List.ne_nil_of_mem hmem)
    show _ ∈ foreignKeyIssues ds
    unfold foreignKeyIssues
    simp [hie]

/-- Witness for `null_fk_double_reported` at `nullFkDataset`, both
implications discharged. -/
theorem null_fk_double_reported_witness :
    nullFkOrder ∈ ordersNullRows nullFkDataset.orders
  ∧ ordersNullMsg (ordersNullRows nullFkDataset.orders) ∈
      (validate_orders nullFkDataset.orders).issues
  ∧ nullFkOrder ∈ orphanCustomerRows nullFkDataset
  ∧ orphanCustomerMsg (orphanCustomerRows nullFkDataset) ∈
      (validate_foreign_keys nullFkDataset).issues
  ∧ nullFkOrder ∈ orphanProductRows nullFkDataset
  ∧ orphanProductMsg (orphanProductRows nullFkDataset) ∈
      (validate_foreign_keys nullFkDataset).issues := by
  have h := null_fk_double_reported nullFkDataset nullFkOrder (by decide)
  have h1 := h.1 rfl
  have h2 := h.2 rfl
  exact ⟨h1.1, h1.2.1, h1.2.2.1, h1.2.2.2, h2.2.2.1, h2.2.2.2⟩

/-! ## C10 -/

theorem if_nil_sublist {c : Prop} [Decidable c] (m : α) :
    List.Sublist (if c then ([] : List α) else [m]) [m] := by
  split_ifs <;> simp

/-- C10: each section appends at most one issue entry per rule, so the
issue lists are bounded by the rule counts (3, 4, 3, 2, 2); each list
is a sublist of the per-rule message list, each entry folding all
violating records of its rule; and every section's `valid` flag is the
emptiness of its issues list. -/
theorem issue_lists_bounded (ds : Dataset) :
    List.Sublist ((validate_customers ds.customers).issues)
      [customersNullMsg (customersNullRows ds.customers),
       duplicateEmailMsg (duplicateEmailGroups ds.customers),
       invalidEmailMsg (invalidEmailRows ds.customers)]
  ∧ List.Sublist ((validate_products ds.products).issues)
      [productsNullMsg (productsNullRows ds.products),
       negativePriceMsg (negativePriceRows ds.products),
       negativeStockMsg (negativeStockRows ds.products),
       duplicateProductIdMsg (duplicateProductIdGroups ds.products)]
  ∧ List.Sublist ((validate_orders ds.orders).issues)
      [ordersNullMsg (ordersNullRows ds.orders),
       invalidQuantityMsg (invalidQuantityRows ds.orders),
       negativeUnitPriceMsg (negativeUnitPriceRows ds.orders)]
  ∧ List.Sublist ((validate_foreign_keys ds).issues)
      [orphanCustomerMsg (orphanCustomerRows ds),
       orphanProductMsg (orphanProductRows ds)]
  ∧ List.Sublist ((validate_data_consistency ds).issues)
      [priceMismatchMsg (priceMismatchRows ds).length,
       stockIssueMsg (stockIssueRows ds).length]
  ∧ (validate_customers ds.customers).issues.length ≤ 3
  ∧ (validate_products ds.products).issues.length ≤ 4
  ∧ (validate_orders ds.orders).issues.length ≤ 3
  ∧ (validate_foreign_keys ds).issues.length ≤ 2
  ∧ (validate_data_consistency ds).issues.length ≤ 2
  ∧ (validate_customers ds.customers).valid =
      (validate_customers ds.customers).issues.isEmpty
  ∧ (validate_products ds.products).valid =
      (validate_products ds.products).issues.isEmpty
  ∧ (validate_orders ds.orders).valid =
      (validate_orders ds.orders).issues.isEmpty
  ∧ (validate_foreign_keys ds).valid =
      (validate_foreign_keys ds).issues.isEmpty
  ∧ (validate_data_consistency ds).valid =
      (validate_data_consistency ds).issues.isEmpty := by
  have hc : List.Sublist (customersIssues ds.customers)
      [customersNullMsg (customersNullRows ds.customers),
       duplicateEmailMsg (duplicateEmailGroups ds.customers),
       invalidEmailMsg (invalidEmailRows ds.customers)] := by
    unfold customersIssues
    exact List.Sublist.append
      (List.Sublist.append (if_nil_sublist _) (if_nil_sublist _))
      (if_nil_sublist _)
  have hp : List.Sublist (productsIssues ds.products)
      [productsNullMsg (productsNullRows ds.products),
       negativePriceMsg (negativePriceRows ds.products),
       negativeStockMsg (negativeStockRows ds.products),
       duplicateProductIdMsg (duplicateProductIdGroups ds.products)] := by
    unfold productsIssues
    exact List.Sublist.append
      (List.Sublist.append
        (List.Sublist.append (if_nil_sublist _) (if_nil_sublist _))
        (if_nil_sublist _))
      (if_nil_sublist _)
  have ho : List.Sublist (ordersIssues ds.orders)
      [ordersNullMsg (ordersNullRows ds.orders),
       invalidQuantityMsg (invalidQuantityRows ds.orders),
       negativeUnitPriceMsg (negativeUnitPriceRows ds.orders)] := by
    unfold ordersIssues
    exact List.Sublist.append
      (List.Sublist.append (if_nil_sublist _) (if_nil_sublist _))
      (if_nil_sublist _)
  have hf : List.Sublist (foreignKeyIssues ds)
      [orphanCustomerMsg (orphanCustomerRows ds),
       orphanProductMsg (orphanProductRows ds)] := by
    unfold foreignKeyIssues
    exact List.Sublist.append (if_nil_sublist _) (if_nil_sublist _)
  have hd : List.Sublist (consistencyIssues ds)
      [priceMismatchMsg (priceMismatchRows ds).length,
       stockIssueMsg (stockIssueRows ds).length] := by
    unfold consistencyIssues
    exact List.Sublist.append (if_nil_sublist _) (if_nil_sublist _)
  exact ⟨hc, hp, ho, hf, hd,
    hc.length_le, hp.length_le, ho.length_le, hf.length_le, hd.length_le,
    rfl, rfl, rfl, rfl, rfl⟩

end DataValidation
